import Mathlib

/-!
Shallow embedding of the client-side scripts of the Breast-Cancer-Prediction
repository (`src/static/script.js` and `src/templates/script.js`), together
with proofs about the behaviours claimed in the specification.

Modelling conventions:
* JavaScript strings are Lean `String`s (sequences of code points; the claims
  never hinge on UTF-16 surrogate behaviour).
* JavaScript numbers are modelled as `Rat`; every numeric value exercised by
  the claims is exactly representable and rounds identically under
  `toFixed(1)`.
* `JSON.parse` and `response.json()` are browser primitives, not repository
  code; the handlers receive them as an abstract `parse : String → Option α`
  (`none` models a thrown parse exception).
* DOM mutation is modelled by returning the final `innerHTML` string of the
  result region owned by the handler; the transient "loading" message is not
  observable once the handler finishes.
* `fetch` outcomes are reified in `FetchOutcome`: a rejected promise
  (transport failure) carries the error message, a settled response carries
  status, statusText and body text.
-/

namespace BreastCancer

/-! ### String-containment machinery used to state "the message contains ..." -/

/-- `subL needle hay`: does `needle` occur contiguously inside `hay`? -/
def subL (needle : List Char) : List Char → Bool
  | [] => needle.isPrefixOf []
  | c :: t => needle.isPrefixOf (c :: t) || subL needle t

/-- `strContains hay needle`: `needle` occurs as a contiguous substring of `hay`. -/
def strContains (hay needle : String) : Bool :=
  subL needle.data hay.data

/-- The first `n` code points of `s`, as a string (models `s.substring(0, n)`). -/
def strTake (s : String) (n : Nat) : String :=
  ⟨s.data.take n⟩

theorem strData_append (s t : String) : (s ++ t).data = s.data ++ t.data := by
  cases s
  cases t
  rfl

theorem isPrefixOf_refl_append (n post : List Char) :
    n.isPrefixOf (n ++ post) = true := by
  induction n with
  | nil => simp [List.isPrefixOf]
  | cons c t ih => simp [List.isPrefixOf, ih]

theorem subL_nil_any (h : List Char) : subL [] h = true := by
  cases h <;> simp [subL, List.isPrefixOf]

theorem subL_cons (n : List Char) (c : Char) (t : List Char)
    (h : subL n t = true) : subL n (c :: t) = true := by
  simp [subL, h]

theorem subL_append_left (n pre h : List Char) (hh : subL n h = true) :
    subL n (pre ++ h) = true := by
  induction pre with
  | nil => simpa using hh
  | cons c t ih =>
    simp only [List.cons_append]
    exact subL_cons _ _ _ ih

theorem subL_self_append (n post : List Char) : subL n (n ++ post) = true := by
  cases n with
  | nil => simpa using subL_nil_any post
  | cons a as =>
    have h := isPrefixOf_refl_append (a :: as) post
    simp only [List.cons_append] at h
    simp [subL, h]

theorem strContains_middle (a b c : String) :
    strContains (a ++ b ++ c) b = true := by
  unfold strContains
  rw [strData_append, strData_append, List.append_assoc]
  exact subL_append_left _ _ _ (subL_self_append _ _)

theorem isPrefixOf_append_ext (n : List Char) :
    ∀ (s post : List Char), n.isPrefixOf s = true →
      n.isPrefixOf (s ++ post) = true := by
  induction n with
  | nil => intro s post _; simp [List.isPrefixOf]
  | cons a as ih =>
    intro s post h
    cases s with
    | nil => simp [List.isPrefixOf] at h
    | cons b bs =>
      simp only [List.isPrefixOf, Bool.and_eq_true, beq_iff_eq] at h ⊢
      exact ⟨h.1, ih bs post h.2⟩

theorem subL_self (n : List Char) : subL n n = true := by
  have h := subL_self_append n []
  simpa using h

theorem subL_append_right (n : List Char) :
    ∀ (h post : List Char), subL n h = true → subL n (h ++ post) = true := by
  intro h
  induction h with
  | nil =>
    intro post hh
    cases n with
    | nil => simpa using subL_nil_any post
    | cons x xs => simp [subL, List.isPrefixOf] at hh
  | cons c t ih =>
    intro post hh
    simp only [subL, Bool.or_eq_true] at hh ⊢
    rcases hh with hh | hh
    · exact Or.inl (isPrefixOf_append_ext _ _ _ hh)
    · exact Or.inr (ih post hh)

theorem strContains_append_left (pre h n : String)
    (hh : strContains h n = true) : strContains (pre ++ h) n = true := by
  unfold strContains at hh ⊢
  rw [strData_append]
  exact subL_append_left _ _ _ hh

theorem strContains_append_right (h post n : String)
    (hh : strContains h n = true) : strContains (h ++ post) n = true := by
  unfold strContains at hh ⊢
  rw [strData_append]
  exact subL_append_right _ _ _ hh

theorem strContains_self (s : String) : strContains s s = true := by
  unfold strContains
  exact subL_self _

theorem strContains_append_self (a b : String) :
    strContains (a ++ b) b = true :=
  strContains_append_left a b b (strContains_self b)

/-! ### `safeJsonResponse` (src/static/script.js, lines 1–12)

The JavaScript reads the body text, throws `"Server returned empty response"`
when the text is falsy (the empty string), otherwise attempts `JSON.parse`
and, on a parse exception, throws
`"Invalid JSON response: " + text.substring(0, 100) + "..."`.
`Except.error` models a thrown `Error` carrying its message. -/

def emptyResponseMsg : String := "Server returned empty response"

def invalidJsonMsg (text : String) : String :=
  "Invalid JSON response: " ++ strTake text 100 ++ "..."

def safeJsonResponse {α : Type} (parse : String → Option α) (text : String) :
    Except String α :=
  if text = "" then .error emptyResponseMsg
  else
    match parse text with
    | some v => .ok v
    | none => .error (invalidJsonMsg text)

/-- C4: a non-empty body on which `JSON.parse` throws is reported as a
JSON-parse error whose message contains the first 100 code points of the
offending text, which form a genuine truncated-to-100 prefix of that text. -/
theorem c4_invalid_json_reported_with_excerpt {α : Type}
    (parse : String → Option α) (text : String)
    (hne : text ≠ "") (hp : parse text = none) :
    safeJsonResponse parse text = .error (invalidJsonMsg text) ∧
    strContains (invalidJsonMsg text) (strTake text 100) = true ∧
    text = strTake text 100 ++ ⟨text.data.drop 100⟩ := by
  refine ⟨?_, ?_, ?_⟩
  · simp [safeJsonResponse, hne, hp]
  · exact strContains_middle "Invalid JSON response: " (strTake text 100) "..."
  · cases text with
    | mk l =>
      show String.mk l = String.mk (l.take 100 ++ l.drop 100)
      rw [List.take_append_drop]

/-- Witness for C4 at the spec's own example body. -/
theorem c4_witness :
    ("\x7bnot json" ≠ "") ∧
    safeJsonResponse (fun _ => (none : Option Unit)) "\x7bnot json" =
      .error (invalidJsonMsg "\x7bnot json") ∧
    strContains (invalidJsonMsg "\x7bnot json") (strTake "\x7bnot json" 100) = true := by
  have h := c4_invalid_json_reported_with_excerpt
    (fun _ => (none : Option Unit)) "\x7bnot json" (by decide) rfl
  exact ⟨by decide, h.1, h.2.1⟩

/-! ### JavaScript string case mapping

`toLowerCase`/`toUpperCase` map each character independently; for the ASCII
labels handled by this UI that is exactly a per-character case map. -/

def jsToLower (s : String) : String := ⟨s.data.map Char.toLower⟩

def jsToUpper (s : String) : String := ⟨s.data.map Char.toUpper⟩

/-! ### Number formatting: `Number.prototype.toFixed(1)`

ECMAScript picks the integer `n` minimising `|n / 10 - x|`, preferring the
larger `n` on ties; that is `n = ⌊10·x + 1/2⌋ = (20·num + den) ediv (2·den)`.
All values formatted by the UI are non-negative. -/

def toFixed1 (x : Rat) : String :=
  let n : Int := Int.ediv (20 * x.num + (x.den : Int)) (2 * (x.den : Int))
  if n < 0 then
    "-" ++ toString ((-n).toNat / 10) ++ "." ++ toString ((-n).toNat % 10)
  else
    toString (n.toNat / 10) ++ "." ++ toString (n.toNat % 10)

/-! ### Single-result rendering (`displayResult`, src/static/script.js 188–206)

`result` is the parsed JSON object; the fields the function reads are
`prediction` (may be absent — accessing `.toLowerCase()` then throws, which
the submit handler catches) and `confidence` (defaulted through JavaScript
truthiness: `result.confidence || 0.85`, so absent, 0 and NaN all fall back
to 0.85). -/

structure SingleResult where
  prediction : Option String := none
  confidence : Option Rat := none
deriving DecidableEq

/-- The class-name computation `prediction.toLowerCase() === 'malignant' ?
'malignant' : 'benign'` shared verbatim by src/static/script.js lines 192
and 227. -/
def labelClass (p : String) : String :=
  if jsToLower p = "malignant" then "malignant" else "benign"

/-- `result.confidence || 0.85` (src/static/script.js line 190). -/
def effConfidence (c : Option Rat) : Rat :=
  match c with
  | some v => if v = 0 then 85 / 100 else v
  | none => 85 / 100

def msgMalignant : String := "Please consult with a healthcare professional immediately"

def msgBenign : String := "The tumor appears to be non-cancerous"

/-- The template literal assigned to `container.innerHTML` at
src/static/script.js lines 198–205, with the interpolated holes abstracted. -/
def singleResultHtml (className emoji predictionUpper confText message : String) :
    String :=
  ("\n    <div class=\"result " ++ className ++ "\">\n      <h3>" ++ emoji ++
      " ML Model Prediction</h3>\n      <p><strong>" ++ predictionUpper ++
      "</strong></p>\n      <p>") ++
    ("Confidence: " ++ confText ++ "%") ++
    ("</p>\n      <small>🤖 " ++ message ++ "</small>\n    </div>\n  ")

def displayResult (r : SingleResult) : Except String String :=
  match r.prediction with
  | none => .error "Cannot read properties of undefined (reading toLowerCase)"
  | some prediction =>
    let confidence := effConfidence r.confidence
    let className := labelClass prediction
    let emoji := if className = "malignant" then "⚠️" else "✅"
    let message := if className = "malignant" then msgMalignant else msgBenign
    .ok (singleResultHtml className emoji (jsToUpper prediction)
          (toFixed1 (confidence * 100)) message)

/-! ### Batch rendering (`displayCSVResults`, src/static/script.js 210–256) -/

structure Pred where
  prediction : String
  confidence : Option Rat := none
deriving DecidableEq

/-- The value of the `predictions` field when present: either a JSON array of
row results, or any non-array JSON value (for which `Array.isArray` is
false). -/
inductive PredsField where
  | nonArray
  | arr (ps : List Pred)
deriving DecidableEq

structure BatchResult where
  predictions : Option PredsField := none
  total_samples : Option Nat := none
  original_columns : Option Nat := none
  columns_used : Option (List String) := none
  benign_count : Option Nat := none
  malignant_count : Option Nat := none
deriving DecidableEq

/-- `pred.confidence ? (pred.confidence * 100).toFixed(1) + '%' : 'N/A'`
(line 228); a confidence of 0 is falsy and renders as `N/A`. -/
def rowConfText (c : Option Rat) : String :=
  match c with
  | some v => if v = 0 then "N/A" else toFixed1 (v * 100) ++ "%"
  | none => "N/A"

/-- One `<tr>` of the batch table (lines 230–236), holes abstracted. -/
def csvRowHtml (rowNum : Nat) (className predictionText confText : String) :
    String :=
  "\n      <tr>\n        <td>" ++ toString rowNum ++
  "</td>\n        <td class=\"" ++ className ++ "\"><strong>" ++
  predictionText ++ "</strong></td>\n        <td>" ++ confText ++
  "</td>\n      </tr>\n    "

def csvRow (index : Nat) (p : Pred) : String :=
  csvRowHtml (index + 1) (labelClass p.prediction) p.prediction
    (rowConfText p.confidence)

def csvRows : Nat → List Pred → String
  | _, [] => ""
  | i, p :: t => csvRow i p ++ csvRows (i + 1) t

/-- `result.benign_count || results.filter(r => r.prediction.toLowerCase()
=== 'benign').length` (line 242); a provided count of 0 is falsy and falls
back to the filtered count. -/
def benignCountVal (r : BatchResult) (results : List Pred) : Nat :=
  match r.benign_count with
  | some n =>
    if n = 0 then (results.filter fun p => jsToLower p.prediction == "benign").length
    else n
  | none => (results.filter fun p => jsToLower p.prediction == "benign").length

/-- `result.malignant_count || results.filter(...).length` (line 243). -/
def malignantCountVal (r : BatchResult) (results : List Pred) : Nat :=
  match r.malignant_count with
  | some n =>
    if n = 0 then (results.filter fun p => jsToLower p.prediction == "malignant").length
    else n
  | none => (results.filter fun p => jsToLower p.prediction == "malignant").length

/-- Column-info block (lines 218–222), guarded by the JavaScript-truthy test
`result.original_columns && result.columns_used` (0 columns is falsy). -/
def columnInfoHtml (r : BatchResult) : String :=
  match r.original_columns, r.columns_used with
  | some oc, some cu =>
    if oc = 0 then ""
    else
      "<div class=\"column-info\">\n      <small>📋 Original CSV had " ++
      toString oc ++ " columns, used " ++ toString cu.length ++
      " required columns for prediction</small>\n    </div>"
  | _, _ => ""

/-- Summary block (lines 245–252), holes abstracted. -/
def summaryHtml (benignCount malignantCount : Nat)
    (benignPct malignantPct : String) : String :=
  "\n    <div class=\"summary\">\n      <h4>📊 ML Model Summary</h4>\n      <p>" ++
  ("✅ Benign: " ++ toString benignCount ++ " samples (" ++ benignPct ++ "%)") ++
  "</p>\n      <p>" ++
  ("⚠️ Malignant: " ++ toString malignantCount ++ " samples (" ++
    malignantPct ++ "%)") ++
  "</p>\n      <small>🤖 Predictions made using your trained model.pkl</small>\n    </div>\n  "

/-- `((count / results.length) * 100).toFixed(1)` (lines 248–249). -/
def pctText (count len : Nat) : String :=
  toFixed1 ((count : Rat) / (len : Rat) * 100)

/-- `displayCSVResults` (src/static/script.js 210–256); `results` is the
`predictions` array the caller has already checked with `Array.isArray`. -/
def displayCSVResults (r : BatchResult) (results : List Pred) : String :=
  let benignCount := benignCountVal r results
  let malignantCount := malignantCountVal r results
  "<div class=\"csv-results\">" ++
  "<h3>🤖 Trained ML Model Results</h3>" ++
  "<p>Processed " ++ toString results.length ++
  " samples using your trained model.pkl</p>" ++
  columnInfoHtml r ++
  "<table><thead><tr><th>Sample #</th><th>Prediction</th><th>Confidence</th></tr></thead><tbody>" ++
  csvRows 0 results ++
  "</tbody></table>" ++
  summaryHtml benignCount malignantCount
    (pctText benignCount results.length)
    (pctText malignantCount results.length) ++
  "</div>"

/-! ### The submit handlers of the static variant
(src/static/script.js 91–185)

`cancerForm`: serialize the form, POST `/predict`, then render: on a rejected
fetch the `catch` block renders a connection error; on a non-2xx response it
renders `Server Error (status): body || statusText`; otherwise it parses the
body with `safeJsonResponse` and hands the result to `displayResult`.  Both
the parse throw and any throw inside `displayResult` are caught by the same
`catch`, so the handler never throws uncaught — which the totality of the
Lean function makes structural.

`csvForm`: additionally checks the file selection before fetching and checks
`result.predictions && Array.isArray(result.predictions)` before rendering. -/

inductive FetchOutcome where
  | failure (message : String)
  | success (status : Nat) (statusText : String) (body : String)
deriving DecidableEq

/-- `response.ok`: status in the inclusive range 200–299. -/
def responseOk (status : Nat) : Bool :=
  decide (200 ≤ status ∧ status < 300)

def errDiv (msg : String) : String :=
  "<div class=\"error\">" ++ msg ++ "</div>"

/-- `❌ Server Error (${response.status}): ${errorText || response.statusText}`
(lines 119 and 166); an empty error body is falsy, so `statusText` is used. -/
def serverErrorMsg (status : Nat) (statusText body : String) : String :=
  "❌ Server Error (" ++ toString status ++ "): " ++
    (if body = "" then statusText else body)

/-- `❌ Connection error: ${error.message}` (lines 129 and 181). -/
def connectionErrorMsg (msg : String) : String :=
  "❌ Connection error: " ++ msg

/-- The `cancerForm` submit handler (src/static/script.js 94–131), as the
final `innerHTML` of `#manualResult` as a function of the fetch outcome. -/
def cancerFormSubmit (parse : String → Option SingleResult)
    (outcome : FetchOutcome) : String :=
  match outcome with
  | .failure msg => errDiv (connectionErrorMsg msg)
  | .success status statusText body =>
    if responseOk status then
      match safeJsonResponse parse body with
      | .error e => errDiv (connectionErrorMsg e)
      | .ok r =>
        match displayResult r with
        | .ok html => html
        | .error e => errDiv (connectionErrorMsg e)
    else errDiv (serverErrorMsg status statusText body)

def noFileMsg : String := "❌ No file selected"

def formatErrorMsg : String := "❌ Unexpected response format"

/-- Result of one run of the `csvForm` handler: whether a `/predict_csv`
request was issued, and the final `innerHTML` of `#csvResult`. -/
structure CsvRun where
  requested : Bool
  html : String
deriving DecidableEq

/-- The `csvForm` submit handler (src/static/script.js 137–183).  `file`
models `formData.get('file')` (`none` = `null`, which is falsy). -/
def csvFormSubmit (file : Option String)
    (parse : String → Option BatchResult) (outcome : FetchOutcome) : CsvRun :=
  match file with
  | none => ⟨false, errDiv noFileMsg⟩
  | some _ =>
    ⟨true,
      match outcome with
      | .failure msg => errDiv (connectionErrorMsg msg)
      | .success status statusText body =>
        if responseOk status then
          match safeJsonResponse parse body with
          | .error e => errDiv (connectionErrorMsg e)
          | .ok r =>
            match r.predictions with
            | some (.arr ps) => displayCSVResults r ps
            | _ => errDiv formatErrorMsg
        else errDiv (serverErrorMsg status statusText body)⟩

/-- C3: an empty response body yields the dedicated empty-response error —
surfaced by the single-record handler as a connection-error message carrying
it — whose text is distinct from (never contains) the JSON-parse error
text, and no parse exception escapes. -/
theorem c3_empty_body_reported_distinctly {α : Type} (parse : String → Option α)
    (parseS : String → Option SingleResult) (statusText : String) :
    safeJsonResponse parse "" = .error emptyResponseMsg ∧
    cancerFormSubmit parseS (.success 200 statusText "") =
      errDiv (connectionErrorMsg emptyResponseMsg) ∧
    strContains emptyResponseMsg "Invalid JSON" = false := by
  refine ⟨by simp [safeJsonResponse], ?_, by decide⟩
  simp [cancerFormSubmit, responseOk, safeJsonResponse]

/-- C5: with no file selected the batch handler renders the no-file error and
issues no HTTP request. -/
theorem c5_no_file_fails_fast (parse : String → Option BatchResult)
    (outcome : FetchOutcome) :
    csvFormSubmit none parse outcome = ⟨false, errDiv noFileMsg⟩ ∧
    (csvFormSubmit none parse outcome).requested = false :=
  ⟨rfl, rfl⟩

/-- C6: once a batch response parses, results are rendered only when the
`predictions` field is present and is an array; a missing or non-array
`predictions` field yields the format error instead. -/
theorem c6_batch_shape_validated (file : String)
    (parse : String → Option BatchResult) (status : Nat)
    (statusText body : String) (r : BatchResult)
    (hok : responseOk status = true) (hne : body ≠ "")
    (hp : parse body = some r) :
    (∀ ps, r.predictions = some (.arr ps) →
      csvFormSubmit (some file) parse (.success status statusText body) =
        ⟨true, displayCSVResults r ps⟩) ∧
    (r.predictions = none ∨ r.predictions = some .nonArray →
      csvFormSubmit (some file) parse (.success status statusText body) =
        ⟨true, errDiv formatErrorMsg⟩) := by
  constructor
  · intro ps hps
    simp [csvFormSubmit, hok, safeJsonResponse, hne, hp, hps]
  · rintro (h | h) <;> simp [csvFormSubmit, hok, safeJsonResponse, hne, hp, h]

/-- Witness for C6 on a one-row predictions array. -/
theorem c6_witness :
    responseOk 200 = true ∧ ("x" ≠ "") ∧
    csvFormSubmit (some "a.csv")
        (fun _ => some ⟨some (.arr [⟨"Benign", none⟩]), none, none, none, none, none⟩)
        (.success 200 "OK" "x") =
      ⟨true, displayCSVResults
        ⟨some (.arr [⟨"Benign", none⟩]), none, none, none, none, none⟩
        [⟨"Benign", none⟩]⟩ := by
  have h := (c6_batch_shape_validated "a.csv"
    (fun _ => some ⟨some (.arr [⟨"Benign", none⟩]), none, none, none, none, none⟩)
    200 "OK" "x"
    ⟨some (.arr [⟨"Benign", none⟩]), none, none, none, none, none⟩
    (by decide) (by decide) rfl).1 [⟨"Benign", none⟩] rfl
  exact ⟨by decide, by decide, h⟩

/-- C9: label classification for styling is case-insensitive in both the
single-result renderer and the batch row renderer: any label whose
lower-casing is `"malignant"` is styled malignant, every other label is
styled benign. -/
theorem c9_label_case_insensitive (s : String) (c : Option Rat) (i : Nat)
    (pc : Option Rat) :
    (jsToLower s = "malignant" →
      displayResult ⟨some s, c⟩ =
        .ok (singleResultHtml "malignant" "⚠️" (jsToUpper s)
              (toFixed1 (effConfidence c * 100)) msgMalignant) ∧
      csvRow i ⟨s, pc⟩ =
        csvRowHtml (i + 1) "malignant" s (rowConfText pc)) ∧
    (jsToLower s ≠ "malignant" →
      displayResult ⟨some s, c⟩ =
        .ok (singleResultHtml "benign" "✅" (jsToUpper s)
              (toFixed1 (effConfidence c * 100)) msgBenign) ∧
      csvRow i ⟨s, pc⟩ =
        csvRowHtml (i + 1) "benign" s (rowConfText pc)) := by
  constructor
  · intro h
    constructor
    · simp [displayResult, labelClass, h]
    · simp [csvRow, labelClass, h]
  · intro h
    constructor
    · simp [displayResult, labelClass, h]
    · simp [csvRow, labelClass, h]

/-- Witness for C9 at the spec's example label `"MALIGNANT"`. -/
theorem c9_witness :
    (jsToLower "MALIGNANT" = "malignant") ∧
    displayResult ⟨some "MALIGNANT", none⟩ =
      .ok (singleResultHtml "malignant" "⚠️" (jsToUpper "MALIGNANT")
            (toFixed1 (effConfidence none * 100)) msgMalignant) ∧
    csvRow 0 ⟨"MALIGNANT", none⟩ =
      csvRowHtml 1 "malignant" "MALIGNANT" (rowConfText none) := by
  have h := (c9_label_case_insensitive "MALIGNANT" none 0 none).1 (by decide)
  exact ⟨by decide, h.1, h.2⟩

/-- C10: in the static variant, a missing confidence — or a falsy one,
including 0 — is defaulted to 0.85 and rendered as `Confidence: 85.0%`,
while a present non-zero confidence `c` is rendered as `c * 100` formatted
to one decimal place. -/
theorem c10_confidence_default (p : String) (c : Rat) :
    effConfidence none = 85 / 100 ∧
    effConfidence (some 0) = 85 / 100 ∧
    (c ≠ 0 → effConfidence (some c) = c) ∧
    displayResult ⟨some p, none⟩ = displayResult ⟨some p, some 0⟩ ∧
    (∃ html, displayResult ⟨some p, none⟩ = .ok html ∧
       strContains html "Confidence: 85.0%" = true) ∧
    (c ≠ 0 → displayResult ⟨some p, some c⟩ =
       .ok (singleResultHtml (labelClass p)
             (if labelClass p = "malignant" then "⚠️" else "✅") (jsToUpper p)
             (toFixed1 (c * 100))
             (if labelClass p = "malignant" then msgMalignant else msgBenign))) := by
  have harg : effConfidence none * 100 = (85 : Rat) := by norm_num [effConfidence]
  have h85 : toFixed1 (effConfidence none * 100) = "85.0" := by rw [harg]; decide
  refine ⟨rfl, by simp [effConfidence], fun h => by simp [effConfidence, h], ?_, ?_, ?_⟩
  · simp [displayResult, effConfidence]
  · refine ⟨singleResultHtml (labelClass p)
      (if labelClass p = "malignant" then "⚠️" else "✅") (jsToUpper p) "85.0"
      (if labelClass p = "malignant" then msgMalignant else msgBenign), ?_, ?_⟩
    · simp [displayResult, h85]
    · have hunit : ("Confidence: " ++ "85.0" ++ "%") = "Confidence: 85.0%" := by decide
      unfold singleResultHtml
      rw [← hunit]
      exact strContains_middle _ _ _
  · intro h
    simp [displayResult, effConfidence, h]

/-- Witness for C10 with the non-zero confidence 0.9. -/
theorem c10_witness :
    ((9 : Rat) / 10 ≠ 0) ∧
    displayResult ⟨some "Benign", some ((9 : Rat) / 10)⟩ =
      .ok (singleResultHtml (labelClass "Benign")
            (if labelClass "Benign" = "malignant" then "⚠️" else "✅")
            (jsToUpper "Benign") (toFixed1 ((9 : Rat) / 10 * 100))
            (if labelClass "Benign" = "malignant" then msgMalignant else msgBenign)) := by
  have h := (c10_confidence_default "Benign" ((9 : Rat) / 10)).2.2.2.2.2 (by norm_num)
  exact ⟨by norm_num, h⟩

/-! ### Tab switching (`openTab`)

src/static/script.js 15–40 and src/templates/script.js 2–19.  The DOM state
the function touches is the list of `.tab-content` elements (modelled with
their `id` and whether `active` is in their class list) and the list of
`.tab-btn` elements (only their `active` flag matters).  `evt.currentTarget`
is the clicked button, modelled by its index.  `getElementById(tabName)`
returns the first element carrying that id — on this page the tab contents
are the id-bearing elements involved.  The static variant null-checks the
lookup and logs `console.error` when it fails; the templates variant does
not null-check, so an unknown id throws a `TypeError`. -/

structure TabElem where
  id : String
  active : Bool
deriving DecidableEq

inductive LogLevel where
  | info
  | warn
  | error
deriving DecidableEq

structure LogEntry where
  level : LogLevel
  message : String
deriving DecidableEq

structure TabState where
  contents : List TabElem
  buttons : List Bool
deriving DecidableEq

/-- The two `classList.remove("active")` loops. -/
def deactivateAll (l : List TabElem) : List TabElem :=
  l.map fun e => ⟨e.id, false⟩

/-- `getElementById` + `classList.add("active")`: activate the first element
with the given id, or `none` when no element has it. -/
def activateFirst : List TabElem → String → Option (List TabElem)
  | [], _ => none
  | e :: t, name =>
    if e.id = name then some (⟨e.id, true⟩ :: t)
    else (activateFirst t name).map (e :: ·)

/-- `openTab` of the static variant: returns the new tab state and the
console log entries of the call. -/
def openTab (st : TabState) (currentTarget : Nat) (tabName : String) :
    TabState × List LogEntry :=
  let contents := deactivateAll st.contents
  let buttons := st.buttons.map fun _ => false
  match activateFirst contents tabName with
  | some contents2 =>
    (⟨contents2, buttons.set currentTarget true⟩,
     [⟨.info, "Tab clicked: " ++ tabName⟩,
      ⟨.info, "✅ Tab switched to: " ++ tabName⟩])
  | none =>
    (⟨contents, buttons⟩,
     [⟨.info, "Tab clicked: " ++ tabName⟩,
      ⟨.error, "❌ Tab not found: " ++ tabName⟩])

/-- `openTab` of the templates variant: no null-check, so an unknown id
throws (`.error` models the uncaught `TypeError`). -/
def openTabTemplates (st : TabState) (currentTarget : Nat) (tabName : String) :
    Except String TabState :=
  let contents := deactivateAll st.contents
  let buttons := st.buttons.map fun _ => false
  match activateFirst contents tabName with
  | some contents2 => .ok ⟨contents2, buttons.set currentTarget true⟩
  | none => .error ("TypeError: cannot add class to null element " ++ tabName)

/-- Number of active tab contents ("exactly one tab is active"). -/
def countActive : List TabElem → Nat
  | [] => 0
  | e :: t => (if e.active then 1 else 0) + countActive t

/-- The state transition of one `openTab` call of the static variant. -/
def applyTab (ct : Nat) (name : String) (st : TabState) : TabState :=
  (openTab st ct name).1

theorem deactivateAll_cons (e : TabElem) (t : List TabElem) :
    deactivateAll (e :: t) = ⟨e.id, false⟩ :: deactivateAll t := rfl

theorem deactivateAll_deactivateAll (l : List TabElem) :
    deactivateAll (deactivateAll l) = deactivateAll l := by
  induction l with
  | nil => rfl
  | cons e t ih =>
    rw [deactivateAll_cons, deactivateAll_cons, ih]

theorem countActive_deactivateAll (l : List TabElem) :
    countActive (deactivateAll l) = 0 := by
  induction l with
  | nil => rfl
  | cons e t ih =>
    rw [deactivateAll_cons]
    simp [countActive, ih]

theorem mem_deactivateAll_not_active (l : List TabElem) (x : TabElem)
    (hx : x ∈ deactivateAll l) : x.active = false := by
  simp [deactivateAll] at hx
  obtain ⟨a, _, ha⟩ := hx
  rw [← ha]

theorem map_const_set (l : List Bool) (i : Nat) (b : Bool) :
    (l.set i b).map (fun _ => false) = l.map (fun _ => false) := by
  induction l generalizing i with
  | nil => rfl
  | cons c t ih =>
    cases i with
    | zero => simp [List.set]
    | succ j => simp [List.set, ih j]

theorem map_const_map_const (l : List Bool) :
    ((l.map fun _ => false).map fun _ => false) = l.map fun _ => false := by
  induction l with
  | nil => rfl
  | cons c t ih => simp only [List.map_cons, ih]

theorem activateFirst_deactivateAll_isSome (l : List TabElem) (name : String)
    (h : ∃ e ∈ l, e.id = name) :
    ∃ l1, activateFirst (deactivateAll l) name = some l1 := by
  induction l with
  | nil => simp at h
  | cons e t ih =>
    by_cases he : e.id = name
    · refine ⟨⟨e.id, true⟩ :: deactivateAll t, ?_⟩
      rw [deactivateAll_cons]
      simp only [activateFirst]
      rw [if_pos he]
    · obtain ⟨x, hx, hid⟩ := h
      rcases List.mem_cons.mp hx with hx | hx
      · exact absurd (hx ▸ hid) he
      · obtain ⟨l1, hl1⟩ := ih ⟨x, hx, hid⟩
        refine ⟨⟨e.id, false⟩ :: l1, ?_⟩
        rw [deactivateAll_cons]
        simp only [activateFirst]
        rw [if_neg he, hl1]
        rfl

theorem activateFirst_deact (l : List TabElem) (name : String) :
    ∀ l1, activateFirst (deactivateAll l) name = some l1 →
      deactivateAll l1 = deactivateAll l ∧
      activateFirst (deactivateAll l1) name = some l1 ∧
      countActive l1 = 1 ∧
      ∀ e ∈ l1, e.active = true → e.id = name := by
  induction l with
  | nil => intro l1 h; simp [deactivateAll, activateFirst] at h
  | cons e t ih =>
    intro l1 h
    rw [deactivateAll_cons] at h
    simp only [activateFirst] at h
    by_cases he : e.id = name
    · rw [if_pos he] at h
      injection h with h
      subst h
      refine ⟨?_, ?_, ?_, ?_⟩
      · rw [deactivateAll_cons, deactivateAll_cons, deactivateAll_deactivateAll]
      · rw [deactivateAll_cons, deactivateAll_deactivateAll]
        simp only [activateFirst]
        rw [if_pos he]
      · simp [countActive, countActive_deactivateAll]
      · intro x hx hact
        rcases List.mem_cons.mp hx with hx | hx
        · rw [hx]; exact he
        · have hfalse := mem_deactivateAll_not_active t x hx
          rw [hfalse] at hact
          exact Bool.noConfusion hact
    · rw [if_neg he] at h
      cases hrec : activateFirst (deactivateAll t) name with
      | none =>
        rw [hrec] at h
        exact absurd h (by simp)
      | some l1' =>
        rw [hrec] at h
        simp only [Option.map, Option.some.injEq] at h
        subst h
        obtain ⟨ih1, ih2, ih3, ih4⟩ := ih l1' hrec
        refine ⟨?_, ?_, ?_, ?_⟩
        · rw [deactivateAll_cons, deactivateAll_cons, ih1]
        · rw [deactivateAll_cons]
          simp only [activateFirst]
          rw [if_neg he, ih2]
          rfl
        · simp [countActive, ih3]
        · intro x hx hact
          rcases List.mem_cons.mp hx with hx | hx
          · rw [hx] at hact
            exact Bool.noConfusion hact
          · exact ih4 x hx hact

/-- C2 counterexample: starting from the page state where the `manual` tab is
the single active tab, calling `openTab` with the unknown id `"bogus"`
deactivates every tab (so the call is not a no-op on the tab state) and
reports via `console.error`, not a warning. -/
theorem c2_counterexample :
    countActive
      ((⟨[⟨"manual", true⟩, ⟨"csv", false⟩], [true, false]⟩ : TabState)).contents = 1 ∧
    (openTab ⟨[⟨"manual", true⟩, ⟨"csv", false⟩], [true, false]⟩ 0 "bogus").1 =
      ⟨[⟨"manual", false⟩, ⟨"csv", false⟩], [false, false]⟩ ∧
    (openTab ⟨[⟨"manual", true⟩, ⟨"csv", false⟩], [true, false]⟩ 0 "bogus").2 =
      [⟨.info, "Tab clicked: bogus"⟩, ⟨.error, "❌ Tab not found: bogus"⟩] := by
  refine ⟨by decide, by decide, by decide⟩

theorem activateFirst_none (l : List TabElem) (name : String)
    (h : ∀ e ∈ l, e.id ≠ name) : activateFirst l name = none := by
  induction l with
  | nil => rfl
  | cons e t ih =>
    have he : e.id ≠ name := h e (by simp)
    have ht : activateFirst t name = none := ih fun x hx => h x (by simp [hx])
    simp [activateFirst, he, ht]

/-- C2 as amended: an unknown tab id is not a no-op — the call deactivates
all tab contents and buttons, leaving no tab active — and the unknown id is
reported through `console.error` (an error, not a warning); in the templates
variant the same call throws a `TypeError` instead. -/
theorem c2_amended (st : TabState) (ct : Nat) (name : String)
    (h : ∀ e ∈ st.contents, e.id ≠ name) :
    (openTab st ct name).1 =
      ⟨deactivateAll st.contents, st.buttons.map fun _ => false⟩ ∧
    countActive (openTab st ct name).1.contents = 0 ∧
    (openTab st ct name).2 =
      [⟨.info, "Tab clicked: " ++ name⟩,
       ⟨.error, "❌ Tab not found: " ++ name⟩] ∧
    openTabTemplates st ct name =
      .error ("TypeError: cannot add class to null element " ++ name) := by
  have hd : ∀ e ∈ deactivateAll st.contents, e.id ≠ name := by
    intro e he
    simp [deactivateAll] at he
    obtain ⟨a, ha, hae⟩ := he
    rw [← hae]
    exact h a ha
  have hnone := activateFirst_none (deactivateAll st.contents) name hd
  refine ⟨by simp [openTab, hnone], ?_, by simp [openTab, hnone],
    by simp [openTabTemplates, hnone]⟩
  simp [openTab, hnone, countActive_deactivateAll]

/-- Witness for C2's amended statement with the unknown id `"bogus"`. -/
theorem c2_witness :
    (∀ e ∈ (⟨[⟨"manual", true⟩, ⟨"csv", false⟩], [true, false]⟩ : TabState).contents,
      e.id ≠ "bogus") ∧
    countActive
      (openTab ⟨[⟨"manual", true⟩, ⟨"csv", false⟩], [true, false]⟩ 1 "bogus").1.contents
      = 0 := by
  have h := c2_amended ⟨[⟨"manual", true⟩, ⟨"csv", false⟩], [true, false]⟩ 1 "bogus"
    (by decide)
  exact ⟨by decide, h.2.1⟩

/-- C8: switching to a known tab id activates exactly that tab; the transition
is idempotent and any number of repeated calls with the same id leaves the
state of the first call unchanged, with exactly one tab content active and
every active tab carrying the requested id. -/
theorem c8_switchTab_idempotent (st : TabState) (ct : Nat) (name : String)
    (h : ∃ e ∈ st.contents, e.id = name) :
    applyTab ct name (applyTab ct name st) = applyTab ct name st ∧
    (∀ n : Nat, (applyTab ct name)^[n + 1] st = applyTab ct name st) ∧
    countActive (applyTab ct name st).contents = 1 ∧
    (∀ e ∈ (applyTab ct name st).contents, e.active = true → e.id = name) := by
  obtain ⟨l1, hl1⟩ := activateFirst_deactivateAll_isSome st.contents name h
  obtain ⟨hd1, hd2, hd3, hd4⟩ := activateFirst_deact st.contents name l1 hl1
  have hst1 : applyTab ct name st =
      ⟨l1, (st.buttons.map fun _ => false).set ct true⟩ := by
    simp [applyTab, openTab, hl1]
  have hb : (((st.buttons.map fun _ => false).set ct true).map fun _ => false)
      = st.buttons.map fun _ => false := by
    rw [map_const_set, map_const_map_const]
  have hidem : applyTab ct name (applyTab ct name st) = applyTab ct name st := by
    rw [hst1]
    simp only [applyTab, openTab, hd2, hb]
  refine ⟨hidem, ?_, ?_, ?_⟩
  · intro n
    induction n with
    | zero => simp
    | succ n ih => rw [Function.iterate_succ_apply', ih, hidem]
  · rw [hst1]
    exact hd3
  · rw [hst1]
    exact hd4

/-- Witness for C8 on the page's two tabs, three repeated calls. -/
theorem c8_witness :
    (∃ e ∈ (⟨[⟨"manual", true⟩, ⟨"csv", false⟩], [true, false]⟩ : TabState).contents,
      e.id = "csv") ∧
    (applyTab 1 "csv")^[3]
        (⟨[⟨"manual", true⟩, ⟨"csv", false⟩], [true, false]⟩ : TabState) =
      applyTab 1 "csv" ⟨[⟨"manual", true⟩, ⟨"csv", false⟩], [true, false]⟩ ∧
    countActive
      (applyTab 1 "csv"
        (⟨[⟨"manual", true⟩, ⟨"csv", false⟩], [true, false]⟩ : TabState)).contents
      = 1 := by
  have h := c8_switchTab_idempotent
    ⟨[⟨"manual", true⟩, ⟨"csv", false⟩], [true, false]⟩ 1 "csv" (by decide)
  exact ⟨by decide, h.2.1 2, h.2.2.1⟩

/-! ### C7: batch summary percentages -/

set_option maxRecDepth 8000 in
/-- C7 counterexample: `result.benign_count || results.filter(...).length`
treats a *present* count of 0 as falsy.  With `benign_count = 0` provided and
one benign row, the claim predicts a displayed benign count of 0, but the
code filters and displays `Benign: 1 samples (100.0%)`. -/
theorem c7_counterexample :
    (⟨none, none, none, none, some 0, none⟩ : BatchResult).benign_count = some 0 ∧
    benignCountVal ⟨none, none, none, none, some 0, none⟩ [⟨"Benign", none⟩] = 1 ∧
    strContains
      (displayCSVResults ⟨none, none, none, none, some 0, none⟩ [⟨"Benign", none⟩])
      "✅ Benign: 1 samples (100.0%)" = true ∧
    strContains
      (displayCSVResults ⟨none, none, none, none, some 0, none⟩ [⟨"Benign", none⟩])
      "Benign: 0 samples" = false := by
  have hbc : benignCountVal ⟨none, none, none, none, some 0, none⟩
      [⟨"Benign", none⟩] = 1 := by decide
  have hmc : malignantCountVal ⟨none, none, none, none, some 0, none⟩
      [⟨"Benign", none⟩] = 0 := by decide
  have hl : ([(⟨"Benign", none⟩ : Pred)]).length = 1 := rfl
  have hp1 : pctText 1 1 = "100.0" := by
    have h : ((1 : Nat) : Rat) / ((1 : Nat) : Rat) * 100 = (100 : Rat) := by norm_num
    unfold pctText
    rw [h]
    decide
  have hp0 : pctText 0 1 = "0.0" := by
    have h : ((0 : Nat) : Rat) / ((1 : Nat) : Rat) * 100 = (0 : Rat) := by norm_num
    unfold pctText
    rw [h]
    decide
  refine ⟨rfl, hbc, ?_, ?_⟩ <;>
    · simp only [displayCSVResults, hbc, hmc, hl, hp1, hp0]
      decide

set_option maxRecDepth 8000 in
/-- C7 as amended: with no explicit counts (or explicit counts of 0) the
percentages are computed by filtering the rows by lower-cased label — for the
spec's 3-benign/2-malignant example this displays 60.0% and 40.0% — and a
*non-zero* provided count is used instead of filtering; a provided count of 0
is falsy under `||` and is ignored in favour of the filtered count. -/
theorem c7_amended (r : BatchResult) (ps : List Pred) (n m : Nat) :
    (r.benign_count = some n → n ≠ 0 → benignCountVal r ps = n) ∧
    (r.malignant_count = some m → m ≠ 0 → malignantCountVal r ps = m) ∧
    (r.benign_count = none →
      benignCountVal r ps =
        (ps.filter fun p => jsToLower p.prediction == "benign").length) ∧
    (r.benign_count = some 0 →
      benignCountVal r ps =
        (ps.filter fun p => jsToLower p.prediction == "benign").length) ∧
    benignCountVal
      ⟨some (.arr [⟨"Benign", none⟩, ⟨"Malignant", none⟩, ⟨"Benign", none⟩,
        ⟨"Benign", none⟩, ⟨"Malignant", none⟩]), none, none, none, none, none⟩
      [⟨"Benign", none⟩, ⟨"Malignant", none⟩, ⟨"Benign", none⟩,
        ⟨"Benign", none⟩, ⟨"Malignant", none⟩] = 3 ∧
    malignantCountVal
      ⟨some (.arr [⟨"Benign", none⟩, ⟨"Malignant", none⟩, ⟨"Benign", none⟩,
        ⟨"Benign", none⟩, ⟨"Malignant", none⟩]), none, none, none, none, none⟩
      [⟨"Benign", none⟩, ⟨"Malignant", none⟩, ⟨"Benign", none⟩,
        ⟨"Benign", none⟩, ⟨"Malignant", none⟩] = 2 ∧
    strContains
      (displayCSVResults
        ⟨some (.arr [⟨"Benign", none⟩, ⟨"Malignant", none⟩, ⟨"Benign", none⟩,
          ⟨"Benign", none⟩, ⟨"Malignant", none⟩]), none, none, none, none, none⟩
        [⟨"Benign", none⟩, ⟨"Malignant", none⟩, ⟨"Benign", none⟩,
          ⟨"Benign", none⟩, ⟨"Malignant", none⟩])
      "✅ Benign: 3 samples (60.0%)" = true ∧
    strContains
      (displayCSVResults
        ⟨some (.arr [⟨"Benign", none⟩, ⟨"Malignant", none⟩, ⟨"Benign", none⟩,
          ⟨"Benign", none⟩, ⟨"Malignant", none⟩]), none, none, none, none, none⟩
        [⟨"Benign", none⟩, ⟨"Malignant", none⟩, ⟨"Benign", none⟩,
          ⟨"Benign", none⟩, ⟨"Malignant", none⟩])
      "⚠️ Malignant: 2 samples (40.0%)" = true := by
  have hbc : benignCountVal
      ⟨some (.arr [⟨"Benign", none⟩, ⟨"Malignant", none⟩, ⟨"Benign", none⟩,
        ⟨"Benign", none⟩, ⟨"Malignant", none⟩]), none, none, none, none, none⟩
      [⟨"Benign", none⟩, ⟨"Malignant", none⟩, ⟨"Benign", none⟩,
        ⟨"Benign", none⟩, ⟨"Malignant", none⟩] = 3 := by decide
  have hmc : malignantCountVal
      ⟨some (.arr [⟨"Benign", none⟩, ⟨"Malignant", none⟩, ⟨"Benign", none⟩,
        ⟨"Benign", none⟩, ⟨"Malignant", none⟩]), none, none, none, none, none⟩
      [⟨"Benign", none⟩, ⟨"Malignant", none⟩, ⟨"Benign", none⟩,
        ⟨"Benign", none⟩, ⟨"Malignant", none⟩] = 2 := by decide
  have hl : ([⟨"Benign", none⟩, ⟨"Malignant", none⟩, ⟨"Benign", none⟩,
      ⟨"Benign", none⟩, (⟨"Malignant", none⟩ : Pred)]).length = 5 := rfl
  have hp60 : pctText 3 5 = "60.0" := by
    have h : ((3 : Nat) : Rat) / ((5 : Nat) : Rat) * 100 = (60 : Rat) := by norm_num
    unfold pctText
    rw [h]
    decide
  have hp40 : pctText 2 5 = "40.0" := by
    have h : ((2 : Nat) : Rat) / ((5 : Nat) : Rat) * 100 = (40 : Rat) := by norm_num
    unfold pctText
    rw [h]
    decide
  refine ⟨?_, ?_, ?_, ?_, hbc, hmc, ?_, ?_⟩
  · intro h hn
    simp [benignCountVal, h, hn]
  · intro h hm
    simp [malignantCountVal, h, hm]
  · intro h
    simp [benignCountVal, h]
  · intro h
    simp [benignCountVal, h]
  · simp only [displayCSVResults, hbc, hmc, hl, hp60, hp40]
    decide
  · simp only [displayCSVResults, hbc, hmc, hl, hp60, hp40]
    decide

/-- Witness for C7's amended statement: a non-zero provided count (7) is used
even though the row list is empty. -/
theorem c7_witness :
    (⟨none, none, none, none, some 7, none⟩ : BatchResult).benign_count = some 7 ∧
    (7 ≠ 0) ∧
    benignCountVal ⟨none, none, none, none, some 7, none⟩ [] = 7 := by
  have h := (c7_amended ⟨none, none, none, none, some 7, none⟩ [] 7 0).1 rfl
    (by decide)
  exact ⟨rfl, by decide, h⟩

/-! ### The templates variant of the single-record flow
(src/templates/script.js 66–95, 126–140, 164–181)

On *any* failure inside the `try` block — the explicit
`throw new Error('Prediction failed')` for a non-ok status, a rejected
`fetch`, a `response.json()` parse rejection, or a `TypeError` thrown inside
`displayResult` — the `catch` block runs `simulatePrediction(data, resultDiv)`
which, after a 1.5 s timeout, renders a *simulated* prediction computed from
three form features and `Math.random()`.  `rand` and `rand2` model the two
`Math.random()` draws (`rand` the one in `simulatePrediction`, `rand2` the
fallback draw in `displayResult`).  The final `innerHTML` after the timeout
fires is returned. -/

structure SimData where
  radius_mean : Rat
  area_mean : Rat
  concavity_mean : Rat
deriving DecidableEq

/-- `result.confidence || Math.random() * 0.3 + 0.7`
(src/templates/script.js line 128). -/
def effConfT (c : Option Rat) (rand2 : Rat) : Rat :=
  match c with
  | some v => if v = 0 then rand2 * (3 / 10) + 7 / 10 else v
  | none => rand2 * (3 / 10) + 7 / 10

/-- The template literal of the templates-variant `displayResult`
(lines 133–139) for a present, string-valued `prediction`. -/
def displayResultTemplatesCore (prediction : String) (confidence : Rat) : String :=
  "\n    <div class=\"result " ++ labelClass prediction ++ "\">\n      " ++
  (if labelClass prediction = "malignant" then "⚠️" else "✅") ++
  " Prediction: <strong>" ++ jsToUpper prediction ++
  "</strong>\n      <br>\n      <small>Confidence: " ++
  toFixed1 (confidence * 100) ++ "%</small>\n    </div>\n  "

/-- Templates-variant `displayResult` (lines 126–140).  `result.prediction ||
result` falls back to the whole result object when `prediction` is absent, on
which `.toLowerCase()` throws (a bare JSON string response would render
instead; no claim exercises that case). -/
def displayResultTemplates (r : SingleResult) (rand2 : Rat) :
    Except String String :=
  match r.prediction with
  | some p => .ok (displayResultTemplatesCore p (effConfT r.confidence rand2))
  | none => .error "TypeError: toLowerCase is not a function"

/-- `simulatePrediction` (lines 164–181): threshold scoring of three features,
then `displayResult({ prediction, confidence })` with
`confidence = Math.random() * 0.2 + 0.75`. -/
def simulatePrediction (data : SimData) (rand rand2 : Rat) : String :=
  let score : Nat :=
    (if data.radius_mean > 15 then 1 else 0) +
    (if data.area_mean > 800 then 1 else 0) +
    (if data.concavity_mean > 1 / 10 then 1 else 0)
  let prediction := if score ≥ 2 then "Malignant" else "Benign"
  let confidence := rand * (2 / 10) + 75 / 100
  displayResultTemplatesCore prediction (effConfT (some confidence) rand2)

/-- The templates-variant `cancerForm` submit handler (lines 66–95): the final
`innerHTML` of `#manualResult` as a function of the fetch outcome. -/
def cancerFormSubmitTemplates (data : SimData) (rand rand2 : Rat)
    (parse : String → Option SingleResult) (outcome : FetchOutcome) : String :=
  match outcome with
  | .failure _ => simulatePrediction data rand rand2
  | .success status _ body =>
    if responseOk status then
      match parse body with
      | some r =>
        match displayResultTemplates r rand2 with
        | .ok html => html
        | .error _ => simulatePrediction data rand rand2
      | none => simulatePrediction data rand rand2
    else simulatePrediction data rand rand2

/-- C1 counterexample: in the templates variant a 500 response does *not*
render an error message containing the status and body — it renders a
simulated prediction (`result benign`, confidence 85.0%) that mentions
neither the status `500`, the body text, nor any error. -/
theorem c1_counterexample :
    responseOk 500 = false ∧
    cancerFormSubmitTemplates ⟨14, 600, 1 / 20⟩ (1 / 2) 0 (fun _ => none)
        (.success 500 "Internal Server Error" "model crashed") =
      displayResultTemplatesCore "Benign" (85 / 100) ∧
    strContains (displayResultTemplatesCore "Benign" (85 / 100)) "500" = false ∧
    strContains (displayResultTemplatesCore "Benign" (85 / 100)) "model crashed"
      = false ∧
    strContains (displayResultTemplatesCore "Benign" (85 / 100)) "error" = false ∧
    strContains (displayResultTemplatesCore "Benign" (85 / 100)) "result benign"
      = true := by
  have hfix : toFixed1 ((85 / 100 : Rat) * 100) = "85.0" := by
    have h : ((85 : Rat) / 100) * 100 = (85 : Rat) := by norm_num
    rw [h]
    decide
  have hcore : displayResultTemplatesCore "Benign" (85 / 100) =
      "\n    <div class=\"result benign\">\n      ✅ Prediction: <strong>BENIGN</strong>\n      <br>\n      <small>Confidence: 85.0%</small>\n    </div>\n  " := by
    unfold displayResultTemplatesCore
    rw [hfix]
    decide
  refine ⟨by decide, ?_, ?_, ?_, ?_, ?_⟩
  · have hconf : (1 / 2 : Rat) * (2 / 10) + 75 / 100 = 85 / 100 := by norm_num
    have hnz : ¬ ((1 / 2 : Rat) * (2 / 10) + 75 / 100 = 0) := by norm_num
    simp only [cancerFormSubmitTemplates, simulatePrediction, effConfT]
    norm_num
  · rw [hcore]; decide
  · rw [hcore]; decide
  · rw [hcore]; decide
  · rw [hcore]; decide

/-- C1 as amended: in the static variant, transport failure and non-success
status each render a visible error — the latter containing the status code
and the body text (or `statusText` when the body is empty) — and the handler
catches every throw, so nothing escapes; in the templates variant, the same
conditions instead render a simulated demo prediction. -/
theorem c1_amended (parse : String → Option SingleResult) (status : Nat)
    (statusText body : String) (hstatus : responseOk status = false)
    (data : SimData) (rand rand2 : Rat)
    (parseT : String → Option SingleResult) (msg : String) :
    cancerFormSubmit parse (.success status statusText body) =
      errDiv (serverErrorMsg status statusText body) ∧
    strContains (errDiv (serverErrorMsg status statusText body))
      (toString status) = true ∧
    (body ≠ "" →
      strContains (errDiv (serverErrorMsg status statusText body)) body = true) ∧
    cancerFormSubmit parse (.failure msg) = errDiv (connectionErrorMsg msg) ∧
    cancerFormSubmitTemplates data rand rand2 parseT
        (.success status statusText body) =
      simulatePrediction data rand rand2 := by
  refine ⟨?_, ?_, ?_, rfl, ?_⟩
  · simp [cancerFormSubmit, hstatus]
  · have h1 : strContains ("❌ Server Error (" ++ toString status)
        (toString status) = true := strContains_append_self _ _
    have h2 := strContains_append_right _ "): " _ h1
    have h3 := strContains_append_right _
      (if body = "" then statusText else body) _ h2
    have h4 := strContains_append_left "<div class=\"error\">" _ _ h3
    exact strContains_append_right _ "</div>" _ h4
  · intro hb
    show strContains
      ("<div class=\"error\">" ++
        ("❌ Server Error (" ++ toString status ++ "): " ++
          (if body = "" then statusText else body)) ++ "</div>") body = true
    rw [if_neg hb]
    have h1 : strContains
        ("❌ Server Error (" ++ toString status ++ "): " ++ body) body = true :=
      strContains_append_self _ _
    have h2 := strContains_append_left "<div class=\"error\">" _ _ h1
    exact strContains_append_right _ "</div>" _ h2
  · simp [cancerFormSubmitTemplates, hstatus]

/-- Witness for C1's amended statement at a concrete 500 response. -/
theorem c1_witness :
    responseOk 500 = false ∧
    cancerFormSubmit (fun _ => none)
        (.success 500 "Internal Server Error" "boom") =
      errDiv (serverErrorMsg 500 "Internal Server Error" "boom") ∧
    strContains (errDiv (serverErrorMsg 500 "Internal Server Error" "boom"))
      (toString 500) = true ∧
    ("boom" ≠ "") ∧
    strContains (errDiv (serverErrorMsg 500 "Internal Server Error" "boom"))
      "boom" = true := by
  have h := c1_amended (fun _ => none) 500 "Internal Server Error" "boom"
    (by decide) ⟨14, 600, 1 / 20⟩ (1 / 2) 0 (fun _ => none) "Failed to fetch"
  exact ⟨by decide, h.1, h.2.1, by decide, h.2.2.1 (by decide)⟩

end BreastCancer
